import Mathlib

/-!
Verification development for the sioworkersd dispatcher core
(repository `sioworkers`, files `sio/sioworkersd/server.py` and the
trial test-suite `sio/sioworkersd/twisted_t.py`).

The repository ships only `server.py` (factory glue) and the tests; the
modules `sio/sioworkersd/utils.py`, `workermanager.py`, `taskmanager.py`
and `scheduler/prioritizing.py` are referenced by the tests but their
sources are not present.  Definitions for those modules are therefore
modelled from the specification, as marked in their doc comments, while
`server.py` is embedded directly from its source.
-/

namespace Sioworkersd

/-- A dynamic value of a job environment (Python `dict` values):
integers, strings, booleans, `None`, and pairs (used for `contest_uid`). -/
inductive Val where
  | vint : Int → Val
  | vstr : String → Val
  | vbool : Bool → Val
  | vnone : Val
  | vpair : Val → Val → Val
deriving Repr, DecidableEq

/-- A job env: an open `string → value` mapping, modelled as an
association list (first binding wins, like a Python dict snapshot). -/
abbrev Env := List (String × Val)

/-- Dictionary lookup (`env.get(k)` in Python). -/
def Env.get (env : Env) (k : String) : Option Val :=
  match env with
  | [] => none
  | (k1, v) :: rest => if k1 = k then some v else Env.get rest k

/-- Python truthiness of a value (`bool(v)`). -/
def Val.truthy : Val → Bool
  | .vint n => n ≠ 0
  | .vstr s => s ≠ ""
  | .vbool b => b
  | .vnone => false
  | .vpair _ _ => true

/-- The `job_type` key of an env, read as a string (empty if absent or
not a string). -/
def jobTypeOf (env : Env) : String :=
  match env.get "job_type" with
  | some (.vstr s) => s
  | _ => ""

/-- The job types handled by the `cpu-exec` arm of the required-RAM
function (§4.2 of the spec). -/
def cpuExecVariants : List String :=
  ["cpu-exec", "exec", "unsafe-exec", "vcpu-exec", "sio2jail-exec"]

/-- A `<key>_mem_limit` entry divided by 1024 (KiB → MiB, Python floor
division); 0 when the key is absent, so that it contributes nothing to
the surrounding `max` with a positive floor. -/
def memLimitDiv (env : Env) (k : String) : Int :=
  match env.get k with
  | some (.vint n) => n.fdiv 1024
  | _ => 0

/-- Whether `check_output` is truthy in the env. -/
def checkOutputTruthy (env : Env) : Bool :=
  match env.get "check_output" with
  | some v => v.truthy
  | none => false

/-- Modelled from the spec: `get_required_ram_for_job` of the missing
module `sio/sioworkersd/utils.py` (§4.2 "Required-RAM function").
Returns the job's required RAM in MiB from its `job_type` and the
optional `*_mem_limit` keys (KiB, integer division). -/
def get_required_ram_for_job (env : Env) : Int :=
  let jt := jobTypeOf env
  if jt ∈ cpuExecVariants then
    let base := max (memLimitDiv env "exec_mem_limit") 64
    if checkOutputTruthy env then
      max base (max (memLimitDiv env "checker_mem_limit") 256)
    else base
  else if jt = "compile" then
    max (memLimitDiv env "compile_mem_limit") 512
  else if jt = "ingen" then
    max (memLimitDiv env "ingen_mem_limit") 256
  else if jt = "inwer" then
    max (memLimitDiv env "inwer_mem_limit") 256
  else
    max (memLimitDiv env (jt ++ "_mem_limit")) 256

/-- A `<key>_mem_limit` entry divided by 1024, kept optional: `none`
when the key is missing (the claim's "a missing limit key contributes
nothing"). -/
def optLimitDiv (env : Env) (k : String) : Option Int :=
  match env.get k with
  | some (.vint n) => some (n.fdiv 1024)
  | _ => none

/-- Maximum of a base value and the present elements of a list of
optional values; absent elements contribute nothing. -/
def maxWithOpts (base : Int) (l : List (Option Int)) : Int :=
  l.foldl (fun acc o => match o with | some v => max acc v | none => acc) base

/-- The claim's reading of the required-RAM table, written with the
missing-key-contributes-nothing convention made explicit. -/
def claimRequiredRam (env : Env) : Int :=
  let jt := jobTypeOf env
  if jt ∈ cpuExecVariants then
    let base := maxWithOpts 64 [optLimitDiv env "exec_mem_limit"]
    if checkOutputTruthy env then
      maxWithOpts 256 [some base, optLimitDiv env "checker_mem_limit"]
    else base
  else if jt = "compile" then
    maxWithOpts 512 [optLimitDiv env "compile_mem_limit"]
  else if jt = "ingen" then
    maxWithOpts 256 [optLimitDiv env "ingen_mem_limit"]
  else if jt = "inwer" then
    maxWithOpts 256 [optLimitDiv env "inwer_mem_limit"]
  else
    maxWithOpts 256 [optLimitDiv env (jt ++ "_mem_limit")]

/-- Advertised worker capabilities (§3 "Worker"): all four fields are
mandatory in a valid hello. -/
structure WorkerInfo where
  name : String
  concurrency : Int
  available_ram_mb : Int
  can_run_cpu_exec : Bool
deriving Repr, DecidableEq

/-- A registered worker: its unique id, advertised info and the
`running_jobs` map `task_id → job env` the WM tracks (§4.2). -/
structure WorkerRec where
  uid : String
  info : WorkerInfo
  tasks : List (String × Env)
deriving Repr, DecidableEq

/-- Modelled from the spec: the registry state of the missing
`sio/sioworkersd/workermanager.py` WorkerManager. -/
structure WMState where
  workers : List WorkerRec
deriving Repr, DecidableEq

/-- The three execution classes of §3: real-cpu (`cpu-exec`),
virtual-cpu (`vcpu-exec`, `sio2jail-exec`), other (all else). -/
inductive ExecClass where
  | realCpu
  | virtualCpu
  | other
deriving Repr, DecidableEq

/-- Classification of a `job_type` string (§3). -/
def classOfJobType (jt : String) : ExecClass :=
  if jt = "cpu-exec" then .realCpu
  else if jt = "vcpu-exec" then .virtualCpu
  else if jt = "sio2jail-exec" then .virtualCpu
  else .other

/-- Classification of a job env by its `job_type`. -/
def classOf (env : Env) : ExecClass :=
  classOfJobType (jobTypeOf env)

/-- Real-cpu and virtual-cpu jobs are mutually exclusive on a worker;
both count as "exclusive" for the WM's internal guard (§4.2). -/
def ExecClass.exclusive : ExecClass → Bool
  | .realCpu => true
  | .virtualCpu => true
  | .other => false

/-- Whether some job of an exclusive class is running on the worker
(the WM's derived exclusivity state, §3). -/
def workerRunsExclusive (w : WorkerRec) : Bool :=
  w.tasks.any (fun t => (classOf t.2).exclusive)

/-- The `task_id` key of an env, read as a string. -/
def taskIdOf (env : Env) : String :=
  match env.get "task_id" with
  | some (.vstr s) => s
  | _ => ""

/-- Registry lookup by worker name (`runOnWorker` addresses workers by
name). -/
def findWorkerByName (wm : WMState) (name : String) : Option WorkerRec :=
  wm.workers.find? (fun w => w.info.name == name)

/-- The ways `runOnWorker` can fail synchronously: unknown worker name,
or the programmer-error guard (`RuntimeError` in the tests) against
dispatching a second exclusive-class job. -/
inductive RunRejection where
  | noSuchWorker
  | runtimeError
deriving Repr, DecidableEq

/-- Modelled from the spec: `WorkerManager.runOnWorker` of the missing
`workermanager.py`, restricted to its synchronous registry effect.  The
internal guard of §4.2 raises a programmer error when a real-cpu or
virtual-cpu job is dispatched to a worker already running one;
otherwise the job is added to the worker's `running_jobs`. -/
def runOnWorker (wm : WMState) (name : String) (env : Env) :
    Except RunRejection WMState :=
  match findWorkerByName wm name with
  | none => .error .noSuchWorker
  | some w =>
    if (classOf env).exclusive && workerRunsExclusive w then
      .error .runtimeError
    else
      .ok { workers :=
        wm.workers.map (fun x =>
          if x.uid == w.uid then
            { x with tasks := x.tasks ++ [(taskIdOf env, env)] }
          else x) }

/-- Smallest element of a list, `none` on the empty list. -/
def minOfList : List Int → Option Int
  | [] => none
  | r :: rs =>
    match minOfList rs with
    | none => some r
    | some m => some (min r m)

/-- Largest element of a list, `none` on the empty list. -/
def maxOfList : List Int → Option Int
  | [] => none
  | r :: rs =>
    match maxOfList rs with
    | none => some r
    | some m => some (max r m)

/-- RAM figures of the live workers that can run real-cpu jobs. -/
def anyCpuRams (wm : WMState) : List Int :=
  (wm.workers.filter (fun w => w.info.can_run_cpu_exec)).map
    (fun w => w.info.available_ram_mb)

/-- RAM figures of the live workers that cannot run real-cpu jobs. -/
def vcpuOnlyRams (wm : WMState) : List Int :=
  (wm.workers.filter (fun w => !w.info.can_run_cpu_exec)).map
    (fun w => w.info.available_ram_mb)

/-- Modelled from the spec: the `minAnyCpuWorkerRam` statistic of the
missing `workermanager.py` (§3 "Derived statistics"). -/
def minAnyCpuWorkerRam (wm : WMState) : Option Int :=
  minOfList (anyCpuRams wm)

/-- Modelled from the spec: the `maxAnyCpuWorkerRam` statistic. -/
def maxAnyCpuWorkerRam (wm : WMState) : Option Int :=
  maxOfList (anyCpuRams wm)

/-- Modelled from the spec: the `minVcpuOnlyWorkerRam` statistic. -/
def minVcpuOnlyWorkerRam (wm : WMState) : Option Int :=
  minOfList (vcpuOnlyRams wm)

/-- Modelled from the spec: the `maxVcpuOnlyWorkerRam` statistic. -/
def maxVcpuOnlyWorkerRam (wm : WMState) : Option Int :=
  maxOfList (vcpuOnlyRams wm)

/-- A registered worker with no running jobs, as built from a valid
hello. -/
def mkWorker (uid : String) (name : String) (conc ram : Int)
    (canCpu : Bool) : WorkerRec :=
  { uid := uid
    info :=
      { name := name
        concurrency := conc
        available_ram_mb := ram
        can_run_cpu_exec := canCpu }
    tasks := [] }

/-- The worker fleet of the `test_stats` scenario (S6): the default
worker of `setUp` plus `w1`–`w4`. -/
def statsWm : WMState :=
  { workers :=
      [mkWorker "unique1" "test_worker" 2 4096 true,
       mkWorker "w1" "w1" 2 128 true,
       mkWorker "w2" "w2" 2 64 false,
       mkWorker "w3" "w3" 2 8192 false,
       mkWorker "w4" "w4" 2 16384 true] }

/-- The empty registry (after all workers are lost). -/
def emptyWm : WMState := { workers := [] }

/-- A minimal `cpu-exec` job env as built by `_fill_env` in the tests. -/
def hangEnv (tid : String) : Env :=
  [("task_id", .vstr tid), ("job_type", .vstr "cpu-exec")]

/-- The default test worker (concurrency 2, 4096 MiB, can run cpu-exec)
with the never-completing `hang1` cpu-exec job running: one of its two
concurrency slots is still free. -/
def busyWorker : WorkerRec :=
  { uid := "unique1"
    info :=
      { name := "test_worker"
        concurrency := 2
        available_ram_mb := 4096
        can_run_cpu_exec := true }
    tasks := [("hang1", hangEnv "hang1")] }

/-- Registry holding just `busyWorker` (the `test_cpu_exec` scenario). -/
def busyWm : WMState := { workers := [busyWorker] }

/-- What the WM sees of a connecting worker at handshake time: the
hello's `clientInfo` and the reply to `get_running`. -/
structure ConnInfo where
  clientInfo : Env
  running : List String
deriving Repr, DecidableEq

/-- The two rejection exceptions of `server.py` (`DuplicateWorker`,
`WorkerRejected`), exactly the ones `workerConnected` catches. -/
inductive NewWorkerError where
  | duplicateWorker
  | workerRejected
deriving Repr, DecidableEq

/-- Hello validation (§4.1): `name` non-empty string, `concurrency` a
positive integer, `available_ram_mb` a non-negative integer,
`can_run_cpu_exec` a boolean. -/
def validClientInfo (info : Env) : Bool :=
  (match info.get "name" with
   | some (.vstr s) => s != ""
   | _ => false) &&
  (match info.get "concurrency" with
   | some (.vint n) => decide (0 < n)
   | _ => false) &&
  (match info.get "available_ram_mb" with
   | some (.vint n) => decide (0 ≤ n)
   | _ => false) &&
  (match info.get "can_run_cpu_exec" with
   | some (.vbool _) => true
   | _ => false)

/-- The `name` field of a hello (empty when absent). -/
def clientName (info : Env) : String :=
  match info.get "name" with
  | some (.vstr s) => s
  | _ => ""

/-- The `concurrency` field of a hello (0 when absent). -/
def clientConcurrency (info : Env) : Int :=
  match info.get "concurrency" with
  | some (.vint n) => n
  | _ => 0

/-- The `available_ram_mb` field of a hello (0 when absent). -/
def clientRam (info : Env) : Int :=
  match info.get "available_ram_mb" with
  | some (.vint n) => n
  | _ => 0

/-- The `can_run_cpu_exec` field of a hello (false when absent). -/
def clientCanCpu (info : Env) : Bool :=
  match info.get "can_run_cpu_exec" with
  | some (.vbool b) => b
  | _ => false

/-- Modelled from the spec: `WorkerManager.newWorker` of the missing
`workermanager.py` (§4.1, §4.2, §7).  A unique id already registered
fails with `DuplicateWorker`; an invalid hello or a non-empty
`get_running` reply fails with `WorkerRejected`; each failure closes
the transport and leaves the registry unchanged.  Returns the registry
after the call, the outcome, and whether the connection's transport is
still open. -/
def newWorker (wm : WMState) (uid : String) (conn : ConnInfo) :
    WMState × Except NewWorkerError Unit × Bool :=
  if wm.workers.any (fun w => w.uid == uid) then
    (wm, .error .duplicateWorker, false)
  else if !validClientInfo conn.clientInfo then
    (wm, .error .workerRejected, false)
  else if !conn.running.isEmpty then
    (wm, .error .workerRejected, false)
  else
    ({ workers := wm.workers ++
        [mkWorker uid (clientName conn.clientInfo)
          (clientConcurrency conn.clientInfo) (clientRam conn.clientInfo)
          (clientCanCpu conn.clientInfo)] },
     .ok (), true)

/-- The default test hello of `TestWorker`. -/
def testClientInfo (name : String) : Env :=
  [("name", .vstr name), ("concurrency", .vint 2),
   ("available_ram_mb", .vint 4096), ("can_run_cpu_exec", .vbool true)]

/-- Registry with the default test worker registered under `unique1`. -/
def oneWorkerWm : WMState :=
  { workers := [mkWorker "unique1" "test_worker" 2 4096 true] }

/-- A group env as submitted to `addTaskGroup` (§3 "Task Group"):
`group_id`, the `workers_jobs` mapping `task_id → job env`, and the
pass-through keys of the group env. -/
structure GroupEnv where
  group_id : String
  workers_jobs : List (String × Env)
  extra : Env
deriving Repr, DecidableEq

/-- A persisted task-group record (§3, §6 "Persistent store layout"). -/
structure StoredGroup where
  id : String
  status : String
  timestamp : String
  retry_cnt : Nat
  genv : GroupEnv
deriving Repr, DecidableEq

/-- Modelled from the spec: Task Manager state of the missing
`taskmanager.py` — the `max_task_ram_mb` cap, the persistent store
keyed by group id, and the in-progress map `task_id → job env`. -/
structure TMState where
  maxTaskRamMb : Int
  store : List (String × StoredGroup)
  inProgress : List (String × Env)
deriving Repr, DecidableEq

/-- Outcome `addTaskGroup` delivers synchronously: a rejection result
env, or acceptance with the aggregated result still pending. -/
inductive AddResult where
  | rejectedWith (resultEnv : Env)
  | acceptedPending
deriving Repr, DecidableEq

/-- The response env for a group rejected at admission: the group's env
with an `error` field (§7 `huge-task` row). -/
def hugeTaskError (g : GroupEnv) : Env :=
  ("error", .vstr "huge-task") :: ("group_id", .vstr g.group_id) :: g.extra

/-- The response env for a group whose id is already in progress. -/
def dupGroupError (g : GroupEnv) : Env :=
  ("error", .vstr "duplicate group_id") ::
    ("group_id", .vstr g.group_id) :: g.extra

/-- A freshly accepted group as persisted with status `to_judge`. -/
def mkStoredGroup (g : GroupEnv) : StoredGroup :=
  { id := g.group_id
    status := "to_judge"
    timestamp := "0"
    retry_cnt := 0
    genv := g }

/-- A job env as the TM tracks it: tagged with a `contest_uid`,
defaulting to the pair `(None, None)` when absent (scenario S1). -/
def withContestUid (jenv : Env) : Env :=
  match jenv.get "contest_uid" with
  | some _ => jenv
  | none => jenv ++ [("contest_uid", .vpair .vnone .vnone)]

/-- Modelled from the spec: `TaskManager.addTaskGroup` of the missing
`taskmanager.py` (§4.4): validates `group_id` uniqueness, early-rejects
— response env carrying an `error` field, nothing persisted — when any
job's required RAM exceeds `max_task_ram_mb`, and otherwise persists
the group with status `to_judge` and marks each job in progress. -/
def addTaskGroup (st : TMState) (g : GroupEnv) : TMState × AddResult :=
  if st.store.any (fun p => p.1 == g.group_id) then
    (st, .rejectedWith (dupGroupError g))
  else if g.workers_jobs.any
      (fun j => st.maxTaskRamMb < get_required_ram_for_job j.2) then
    (st, .rejectedWith (hugeTaskError g))
  else
    ({ st with
        store := st.store ++ [(g.group_id, mkStoredGroup g)]
        inProgress := st.inProgress ++
          g.workers_jobs.map (fun j => (j.1, withContestUid j.2)) },
     .acceptedPending)

/-- Modelled from the spec: restart recovery of the missing
`taskmanager.py` (§4.4): every persisted group with status `to_judge`
contributes its jobs, each env tagged with its `contest_uid`. -/
def restoredTasks (db : List (String × StoredGroup)) :
    List (String × Env) :=
  (db.filter (fun p => p.2.status == "to_judge")).flatMap
    (fun p => p.2.genv.workers_jobs.map (fun j => (j.1, withContestUid j.2)))

/-- Modelled from the spec: `TaskManager.startService` — the TM starts
with the persisted store as its store and the restored jobs in
progress. -/
def startService (maxRam : Int) (db : List (String × StoredGroup)) :
    TMState :=
  { maxTaskRamMb := maxRam, store := db, inProgress := restoredTasks db }

/-- The stored job env of the `SAVED_TASKS` fixture. -/
def savedAsdfJob : Env :=
  [("task_id", .vstr "asdf"), ("group_id", .vstr "asdf_group"),
   ("job_type", .vstr "cpu-exec")]

/-- The stored group record of the `SAVED_TASKS` fixture. -/
def savedAsdfGroup : StoredGroup :=
  { id := "asdf_group"
    status := "to_judge"
    timestamp := "1491407526.72"
    retry_cnt := 0
    genv :=
      { group_id := "asdf_group"
        workers_jobs := [("asdf", savedAsdfJob)]
        extra := [("return_url", .vstr "localhost")] } }

/-- The persistent store contents before the restart of scenario S1. -/
def savedDb : List (String × StoredGroup) := [("asdf_group", savedAsdfGroup)]

/-- The env scenario S1 expects for the restored task `asdf`. -/
def restoredAsdfEnv : Env :=
  [("task_id", .vstr "asdf"), ("group_id", .vstr "asdf_group"),
   ("job_type", .vstr "cpu-exec"), ("contest_uid", .vpair .vnone .vnone)]

/-- The submitted group of `test_huge_tasks_should_be_rejected`: one
cpu-exec job with `exec_mem_limit` of 64 GiB expressed in KiB. -/
def hugeGroupEnv : GroupEnv :=
  { group_id := "asdf_group"
    workers_jobs :=
      [("asdf",
        [("task_id", .vstr "asdf"), ("job_type", .vstr "cpu-exec"),
         ("exec_mem_limit", .vint (64 * 1024 * 1024)),
         ("group_id", .vstr "asdf_group")])]
    extra := [] }

/-- A fresh TM as the tests build it (`max_task_ram_mb=2048`). -/
def freshTm : TMState :=
  { maxTaskRamMb := 2048, store := [], inProgress := [] }

/-- One job in flight: dispatched to a worker, its result pending. -/
structure Flight where
  taskId : String
  groupId : String
  env : Env
  worker : String
deriving Repr, DecidableEq

/-- The scheduler's three logical class queues (§4.3). -/
structure SchedQueues where
  realCpuQ : List String
  virtualCpuQ : List String
  otherQ : List String
deriving Repr, DecidableEq

/-- The queue of one execution class. -/
def SchedQueues.queueOf (q : SchedQueues) : ExecClass → List String
  | .realCpu => q.realCpuQ
  | .virtualCpu => q.virtualCpuQ
  | .other => q.otherQ

/-- Enqueue a task id at the back of its class queue. -/
def SchedQueues.enqueue (q : SchedQueues) (c : ExecClass) (tid : String) :
    SchedQueues :=
  match c with
  | .realCpu => { q with realCpuQ := q.realCpuQ ++ [tid] }
  | .virtualCpu => { q with virtualCpuQ := q.virtualCpuQ ++ [tid] }
  | .other => { q with otherQ := q.otherQ ++ [tid] }

/-- Per-group progress entry: retry count and whether the group has
failed terminally. -/
structure GroupProg where
  retry_cnt : Nat
  failed : Bool
deriving Repr, DecidableEq

/-- Dispatcher state relevant to worker-loss handling: jobs in flight,
scheduler queues, group progress, and the configured retry ceiling. -/
structure GoneState where
  flights : List Flight
  queues : SchedQueues
  groups : List (String × GroupProg)
  retryLimit : Nat
deriving Repr, DecidableEq

/-- Failures the WM raises toward the TM for an in-flight job. -/
inductive WMFailure where
  | workerGone
deriving Repr, DecidableEq

/-- Apply an update to the entries of one group id. -/
def updateGroup : List (String × GroupProg) → String →
    (GroupProg → GroupProg) → List (String × GroupProg)
  | [], _, _ => []
  | (k, v) :: rest, gid, fn =>
    if k = gid then (k, fn v) :: updateGroup rest gid fn
    else (k, v) :: updateGroup rest gid fn

/-- TM handler for one job failing with `WorkerGone` (§4.4): bump the
group's retry count and re-queue the job into its class queue while
under the retry ceiling; fail the group once it is exhausted. -/
def retryOne (limit : Nat)
    (acc : SchedQueues × List (String × GroupProg)) (f : Flight) :
    SchedQueues × List (String × GroupProg) :=
  match acc.2.lookup f.groupId with
  | none => acc
  | some g =>
    if g.retry_cnt < limit then
      (acc.1.enqueue (classOf f.env) f.taskId,
       updateGroup acc.2 f.groupId
         (fun p => { p with retry_cnt := p.retry_cnt + 1 }))
    else
      (acc.1, updateGroup acc.2 f.groupId (fun p => { p with failed := true }))

/-- Modelled from the spec: loss of a worker's transport
(`workerLost` of the missing `workermanager.py` plus the retry policy
of the missing `taskmanager.py`).  Every job in flight on that worker
fails with `WorkerGone` — never a terminal outcome by itself — and is
handed to the TM's retry handler.  Returns the new state and the
failures the WM raised. -/
def handleWorkerGone (st : GoneState) (wname : String) :
    GoneState × List (String × WMFailure) :=
  let lost := st.flights.filter (fun f => f.worker == wname)
  let kept := st.flights.filter (fun f => f.worker != wname)
  let qg := lost.foldl (retryOne st.retryLimit) (st.queues, st.groups)
  ({ flights := kept
     queues := qg.1
     groups := qg.2
     retryLimit := st.retryLimit },
   lost.map (fun f => (f.taskId, .workerGone)))

/-- The in-flight `hang` job of the integration `test_gone` scenario. -/
def goneFlight : Flight :=
  { taskId := "hang"
    groupId := "asdf_group"
    env := hangEnv "hang"
    worker := "test" }

/-- Dispatcher state of the `test_gone` scenario just before the
worker's transport drops. -/
def goneSt : GoneState :=
  { flights := [goneFlight]
    queues := { realCpuQ := [], virtualCpuQ := [], otherQ := [] }
    groups := [("asdf_group", { retry_cnt := 0, failed := false })]
    retryLimit := 3 }

/-- `server.py`: what identifies a worker protocol object — its
computed `uniqueID` and a physical identity distinguishing
connections. -/
structure Proto where
  uniqueID : String
  pid : Nat
deriving Repr, DecidableEq

/-- `server.py` `WorkerServerFactory` state: the `workers` dict
(uniqueID → protocol) and the `ignore_set`. -/
structure Factory where
  workers : List (String × Nat)
  ignore_set : List String
deriving Repr, DecidableEq

/-- Python dict assignment `d[k] = v`: replaces in place, or appends. -/
def dictSet (m : List (String × Nat)) (k : String) (v : Nat) :
    List (String × Nat) :=
  if m.any (fun p => p.1 == k) then
    m.map (fun p => if p.1 == k then (k, v) else p)
  else m ++ [(k, v)]

/-- Python `set.add`. -/
def setAdd (s : List String) (x : String) : List String :=
  if x ∈ s then s else s ++ [x]

/-- `WorkerServerFactory.workerConnected`, embedded from `server.py`:
stores the protocol under its uniqueID in `workers`, then forwards to
`manager.newWorker`; when that fails with `DuplicateWorker` or
`WorkerRejected` the uniqueID joins `ignore_set` and the error is
re-raised.  The manager call's outcome is a parameter, the manager
living in the missing `workermanager.py`. -/
def workerConnected (f : Factory) (proto : Proto)
    (managerResult : Except NewWorkerError Unit) :
    Factory × Except NewWorkerError Unit :=
  let f1 : Factory :=
    { f with workers := dictSet f.workers proto.uniqueID proto.pid }
  match managerResult with
  | .ok _ => (f1, .ok ())
  | .error e =>
    ({ f1 with ignore_set := setAdd f1.ignore_set proto.uniqueID }, .error e)

/-- `WorkerServerFactory.workerDisconnected`, embedded from
`server.py`: a uniqueID found in `ignore_set` is only removed from that
set; otherwise the `workers` entry is deleted and `manager.workerLost`
is called.  The boolean reports whether `workerLost` was called. -/
def workerDisconnected (f : Factory) (uid : String) : Factory × Bool :=
  if uid ∈ f.ignore_set then
    ({ f with ignore_set := f.ignore_set.erase uid }, false)
  else
    ({ f with workers := f.workers.filter (fun p => p.1 != uid) }, true)

theorem memLimitDiv_eq_getD (env : Env) (k : String) :
    memLimitDiv env k = (optLimitDiv env k).getD 0 := by
  unfold memLimitDiv optLimitDiv
  cases h : env.get k with
  | none => rfl
  | some v => cases v <;> rfl

theorem maxWithOpts_one (b : Int) (o : Option Int) :
    maxWithOpts b [o] = max b (o.getD b) := by
  cases o with
  | none => simp [maxWithOpts]
  | some v => simp [maxWithOpts]

theorem maxWithOpts_two (b : Int) (x : Int) (o : Option Int) :
    maxWithOpts b [some x, o] = max (max b x) (o.getD (max b x)) := by
  cases o with
  | none => simp [maxWithOpts]
  | some v => simp [maxWithOpts]

/-- C1: for every job env, `get_required_ram_for_job` returns MiB per the
§4.2 table — cpu-exec variants use base `max(exec_mem_limit/1024, 64)`
escalated by `checker_mem_limit` and 256 when `check_output` is truthy;
`compile` uses floor 512; `ingen`, `inwer` and every other job type `t`
use `max(t_mem_limit/1024, 256)`; limits are KiB with integer division
and a missing key contributes nothing.  Stated as agreement with the
claim's own reading of the table, together with the concrete values the
repository's `TestUtils` suite asserts. -/
theorem C1_required_ram_formula :
    (∀ env : Env, get_required_ram_for_job env = claimRequiredRam env) ∧
    get_required_ram_for_job
      [("task_id", .vstr "asdf"), ("job_type", .vstr "cpu-exec")] = 64 ∧
    get_required_ram_for_job
      [("task_id", .vstr "asdf"), ("job_type", .vstr "cpu-exec"),
       ("exec_mem_limit", .vint (768 * 1024))] = 768 ∧
    get_required_ram_for_job
      [("task_id", .vstr "asdf"), ("job_type", .vstr "cpu-exec"),
       ("check_output", .vint 1)] = 256 ∧
    get_required_ram_for_job
      [("task_id", .vstr "asdf"), ("job_type", .vstr "cpu-exec"),
       ("check_output", .vint 1), ("exec_mem_limit", .vint (768 * 1024)),
       ("checker_mem_limit", .vint (896 * 1024))] = 896 ∧
    get_required_ram_for_job
      [("task_id", .vstr "asdf"), ("job_type", .vstr "ingen")] = 256 ∧
    get_required_ram_for_job
      [("task_id", .vstr "asdf"), ("job_type", .vstr "ingen"),
       ("ingen_mem_limit", .vint (768 * 1024))] = 768 ∧
    get_required_ram_for_job
      [("task_id", .vstr "asdf"), ("job_type", .vstr "inwer")] = 256 ∧
    get_required_ram_for_job
      [("task_id", .vstr "asdf"), ("job_type", .vstr "inwer"),
       ("inwer_mem_limit", .vint (768 * 1024))] = 768 ∧
    get_required_ram_for_job
      [("task_id", .vstr "asdf"), ("job_type", .vstr "compile")] = 512 ∧
    get_required_ram_for_job
      [("task_id", .vstr "asdf"), ("job_type", .vstr "compile"),
       ("compile_mem_limit", .vint (768 * 1024))] = 768 ∧
    get_required_ram_for_job
      [("task_id", .vstr "asdf"), ("job_type", .vstr "abc")] = 256 ∧
    get_required_ram_for_job
      [("task_id", .vstr "asdf"), ("job_type", .vstr "abc"),
       ("abc_mem_limit", .vint (768 * 1024))] = 768 := by
  refine ⟨fun env => ?_, by decide, by decide, by decide, by decide,
    by decide, by decide, by decide, by decide, by decide, by decide,
    by decide, by decide⟩
  unfold get_required_ram_for_job claimRequiredRam
  simp only [maxWithOpts_one, maxWithOpts_two, memLimitDiv_eq_getD]
  split
  · split
    · cases optLimitDiv env "exec_mem_limit" <;>
        cases optLimitDiv env "checker_mem_limit" <;>
        simp [Option.getD] <;> omega
    · cases optLimitDiv env "exec_mem_limit" <;> simp [Option.getD, max_comm]
  · split
    · cases optLimitDiv env "compile_mem_limit" <;> simp [Option.getD, max_comm]
    · split
      · cases optLimitDiv env "ingen_mem_limit" <;> simp [Option.getD, max_comm]
      · split
        · cases optLimitDiv env "inwer_mem_limit" <;> simp [Option.getD, max_comm]
        · cases optLimitDiv env (jobTypeOf env ++ "_mem_limit") <;>
            simp [Option.getD, max_comm]

theorem minOfList_eq_none_iff (l : List Int) : minOfList l = none ↔ l = [] := by
  cases l with
  | nil => simp [minOfList]
  | cons r rs =>
    simp only [minOfList]
    cases minOfList rs <;> simp

theorem maxOfList_eq_none_iff (l : List Int) : maxOfList l = none ↔ l = [] := by
  cases l with
  | nil => simp [maxOfList]
  | cons r rs =>
    simp only [maxOfList]
    cases maxOfList rs <;> simp

theorem minOfList_spec (l : List Int) :
    ∀ m, minOfList l = some m → m ∈ l ∧ ∀ r ∈ l, m ≤ r := by
  induction l with
  | nil => intro m h; simp [minOfList] at h
  | cons r rs ih =>
    intro m h
    cases hrs : minOfList rs with
    | none =>
      rw [minOfList, hrs] at h
      have hm := Option.some.inj h
      subst hm
      have hempty : rs = [] := (minOfList_eq_none_iff rs).1 hrs
      subst hempty
      simp
    | some m0 =>
      rw [minOfList, hrs] at h
      have hm := Option.some.inj h
      subst hm
      obtain ⟨hmem, hall⟩ := ih m0 hrs
      constructor
      · rcases le_total r m0 with hle | hle
        · rw [min_eq_left hle]; exact List.mem_cons_self r rs
        · rw [min_eq_right hle]; exact List.mem_cons_of_mem _ hmem
      · intro x hx
        rcases List.mem_cons.1 hx with hhead | htail
        · rw [hhead]; exact min_le_left _ _
        · exact le_trans (min_le_right _ _) (hall x htail)

theorem maxOfList_spec (l : List Int) :
    ∀ m, maxOfList l = some m → m ∈ l ∧ ∀ r ∈ l, r ≤ m := by
  induction l with
  | nil => intro m h; simp [maxOfList] at h
  | cons r rs ih =>
    intro m h
    cases hrs : maxOfList rs with
    | none =>
      rw [maxOfList, hrs] at h
      have hm := Option.some.inj h
      subst hm
      have hempty : rs = [] := (maxOfList_eq_none_iff rs).1 hrs
      subst hempty
      simp
    | some m0 =>
      rw [maxOfList, hrs] at h
      have hm := Option.some.inj h
      subst hm
      obtain ⟨hmem, hall⟩ := ih m0 hrs
      constructor
      · rcases le_total r m0 with hle | hle
        · rw [max_eq_right hle]; exact List.mem_cons_of_mem _ hmem
        · rw [max_eq_left hle]; exact List.mem_cons_self r rs
      · intro x hx
        rcases List.mem_cons.1 hx with hhead | htail
        · rw [hhead]; exact le_max_left _ _
        · exact le_trans (hall x htail) (le_max_right _ _)

/-- C9: the four RAM statistics are the minimum and maximum of
`available_ram_mb` over the workers partitioned by `can_run_cpu_exec`,
and are absent — `none`, not zero — exactly when the partition is
empty.  Includes the concrete `test_stats` fleet and the empty-registry
scenario of the test-suite. -/
theorem C9_worker_ram_stats :
    (∀ wm : WMState,
      (minAnyCpuWorkerRam wm = none ↔ anyCpuRams wm = []) ∧
      (maxAnyCpuWorkerRam wm = none ↔ anyCpuRams wm = []) ∧
      (minVcpuOnlyWorkerRam wm = none ↔ vcpuOnlyRams wm = []) ∧
      (maxVcpuOnlyWorkerRam wm = none ↔ vcpuOnlyRams wm = []) ∧
      (∀ m, minAnyCpuWorkerRam wm = some m →
        m ∈ anyCpuRams wm ∧ ∀ r ∈ anyCpuRams wm, m ≤ r) ∧
      (∀ m, maxAnyCpuWorkerRam wm = some m →
        m ∈ anyCpuRams wm ∧ ∀ r ∈ anyCpuRams wm, r ≤ m) ∧
      (∀ m, minVcpuOnlyWorkerRam wm = some m →
        m ∈ vcpuOnlyRams wm ∧ ∀ r ∈ vcpuOnlyRams wm, m ≤ r) ∧
      (∀ m, maxVcpuOnlyWorkerRam wm = some m →
        m ∈ vcpuOnlyRams wm ∧ ∀ r ∈ vcpuOnlyRams wm, r ≤ m)) ∧
    (minAnyCpuWorkerRam statsWm = some 128 ∧
     maxAnyCpuWorkerRam statsWm = some 16384 ∧
     minVcpuOnlyWorkerRam statsWm = some 64 ∧
     maxVcpuOnlyWorkerRam statsWm = some 8192) ∧
    (minAnyCpuWorkerRam emptyWm = none ∧
     maxAnyCpuWorkerRam emptyWm = none ∧
     minVcpuOnlyWorkerRam emptyWm = none ∧
     maxVcpuOnlyWorkerRam emptyWm = none) := by
  refine ⟨fun wm => ?_, by decide, by decide⟩
  exact ⟨minOfList_eq_none_iff _, maxOfList_eq_none_iff _,
    minOfList_eq_none_iff _, maxOfList_eq_none_iff _,
    fun m h => minOfList_spec _ m h, fun m h => maxOfList_spec _ m h,
    fun m h => minOfList_spec _ m h, fun m h => maxOfList_spec _ m h⟩

theorem C9_worker_ram_stats_witness :
    (128 : Int) ∈ anyCpuRams statsWm ∧
    ∀ r ∈ anyCpuRams statsWm, (128 : Int) ≤ r :=
  (C9_worker_ram_stats.1 statsWm).2.2.2.2.1 128 (by decide)

/-- C3: dispatching a real-cpu or virtual-cpu job to a worker on which
a real-cpu or virtual-cpu job is already running raises the WM's
programmer-error guard (`RuntimeError`), regardless of free
concurrency slots. -/
theorem C3_exclusive_dispatch_guard (wm : WMState) (name : String)
    (env : Env) (w : WorkerRec)
    (hfind : findWorkerByName wm name = some w)
    (hrun : workerRunsExclusive w = true)
    (henv : (classOf env).exclusive = true) :
    runOnWorker wm name env = .error .runtimeError := by
  unfold runOnWorker
  rw [hfind]
  simp [henv, hrun]

theorem C3_exclusive_dispatch_guard_witness :
    runOnWorker busyWm "test_worker" (hangEnv "hang2") =
      .error .runtimeError ∧
    findWorkerByName busyWm "test_worker" = some busyWorker ∧
    (busyWorker.tasks.length : Int) < busyWorker.info.concurrency :=
  ⟨C3_exclusive_dispatch_guard busyWm "test_worker" (hangEnv "hang2")
      busyWorker (by decide) (by decide) (by decide),
    by decide, by decide⟩

/-- C6: `newWorker` on a unique id that is already registered fails
with `DuplicateWorker`, closes the new connection's transport, and
leaves the registry unchanged, every previously registered entry
surviving as it was. -/
theorem C6_duplicate_worker (wm : WMState) (uid : String) (conn : ConnInfo)
    (h : ∃ w ∈ wm.workers, w.uid = uid) :
    newWorker wm uid conn = (wm, .error .duplicateWorker, false) ∧
    ∀ w ∈ wm.workers, w ∈ (newWorker wm uid conn).1.workers := by
  have hany : wm.workers.any (fun w => w.uid == uid) = true := by
    rcases h with ⟨w, hw, huid⟩
    exact List.any_eq_true.2 ⟨w, hw, by simp [huid]⟩
  have heq : newWorker wm uid conn = (wm, .error .duplicateWorker, false) := by
    simp [newWorker, hany]
  exact ⟨heq, fun w hw => by rw [heq]; exact hw⟩

theorem C6_duplicate_worker_witness :
    newWorker oneWorkerWm "unique1"
      { clientInfo := testClientInfo "test_worker", running := [] } =
      (oneWorkerWm, .error .duplicateWorker, false) :=
  (C6_duplicate_worker oneWorkerWm "unique1"
    { clientInfo := testClientInfo "test_worker", running := [] }
    ⟨mkWorker "unique1" "test_worker" 2 4096 true, by decide, by decide⟩).1

/-- C7: a handshake whose clientInfo fails validation — name empty or
missing, concurrency missing or not a positive integer,
available_ram_mb missing or not a non-negative integer, or
can_run_cpu_exec not a boolean — fails with `WorkerRejected` and the
worker is not registered (the registry is returned unchanged). -/
theorem C7_invalid_hello_rejected (wm : WMState) (uid : String)
    (conn : ConnInfo)
    (hnodup : wm.workers.any (fun w => w.uid == uid) = false)
    (hinvalid : validClientInfo conn.clientInfo = false) :
    newWorker wm uid conn = (wm, .error .workerRejected, false) := by
  simp [newWorker, hnodup, hinvalid]

theorem C7_invalid_hello_rejected_witness :
    newWorker emptyWm "no_concurrency"
      { clientInfo := [("name", .vstr "no_concurrency")], running := [] } =
      (emptyWm, .error .workerRejected, false) ∧
    newWorker emptyWm "unique4"
      { clientInfo :=
          [("name", .vstr "unique4"),
           ("concurrency", .vstr "not a number"),
           ("can_run_cpu_exec", .vbool true), ("ram", .vint 256)]
        running := [] } =
      (emptyWm, .error .workerRejected, false) ∧
    newWorker emptyWm "unique5"
      { clientInfo :=
          [("name", .vstr "unique5"), ("concurrency", .vint 2),
           ("can_run_cpu_exec", .vstr "not boolean"), ("ram", .vint 256)]
        running := [] } =
      (emptyWm, .error .workerRejected, false) ∧
    newWorker emptyWm "no_ram"
      { clientInfo :=
          [("name", .vstr "no_ram"), ("concurrency", .vint 2),
           ("can_run_cpu_exec", .vbool true)]
        running := [] } =
      (emptyWm, .error .workerRejected, false) ∧
    newWorker emptyWm "unique7"
      { clientInfo :=
          [("name", .vstr "unique7"), ("concurrency", .vint 2),
           ("can_run_cpu_exec", .vbool true),
           ("ram", .vstr "not a number")]
        running := [] } =
      (emptyWm, .error .workerRejected, false) :=
  ⟨C7_invalid_hello_rejected emptyWm "no_concurrency" _ (by decide) (by decide),
   C7_invalid_hello_rejected emptyWm "unique4" _ (by decide) (by decide),
   C7_invalid_hello_rejected emptyWm "unique5" _ (by decide) (by decide),
   C7_invalid_hello_rejected emptyWm "no_ram" _ (by decide) (by decide),
   C7_invalid_hello_rejected emptyWm "unique7" _ (by decide) (by decide)⟩

/-- C8: a connecting worker whose `get_running` reply is a non-empty
list of task ids is rejected with `WorkerRejected` — a reconnection
mid-execution is never accepted — and is not added to the registry. -/
theorem C8_running_jobs_rejected (wm : WMState) (uid : String)
    (conn : ConnInfo)
    (hnodup : wm.workers.any (fun w => w.uid == uid) = false)
    (hvalid : validClientInfo conn.clientInfo = true)
    (hrun : conn.running ≠ []) :
    newWorker wm uid conn = (wm, .error .workerRejected, false) := by
  cases hc : conn.running with
  | nil => exact absurd hc hrun
  | cons a l => simp [newWorker, hnodup, hvalid, hc]

theorem C8_running_jobs_rejected_witness :
    newWorker oneWorkerWm "unique2"
      { clientInfo := testClientInfo "name2", running := ["asdf"] } =
      (oneWorkerWm, .error .workerRejected, false) :=
  C8_running_jobs_rejected oneWorkerWm "unique2"
    { clientInfo := testClientInfo "name2", running := ["asdf"] }
    (by decide) (by decide) (by decide)

/-- C2: a submitted task group containing a job whose required RAM
exceeds `max_task_ram_mb` is rejected synchronously: the delivered
result env carries an `error` field and the group is never persisted
(the TM state, its store included, is unchanged). -/
theorem C2_huge_task_rejected (st : TMState) (g : GroupEnv)
    (h : ∃ j ∈ g.workers_jobs,
      st.maxTaskRamMb < get_required_ram_for_job j.2) :
    (addTaskGroup st g).1 = st ∧
    ∃ e, (addTaskGroup st g).2 = .rejectedWith e ∧
      (Env.get e "error").isSome = true := by
  have hany : g.workers_jobs.any
      (fun j => st.maxTaskRamMb < get_required_ram_for_job j.2) = true := by
    rcases h with ⟨j, hj, hlt⟩
    exact List.any_eq_true.2 ⟨j, hj, by simpa using hlt⟩
  cases hdup : st.store.any (fun p => p.1 == g.group_id) with
  | true =>
    refine ⟨by simp [addTaskGroup, hdup], dupGroupError g, ?_, ?_⟩
    · simp [addTaskGroup, hdup]
    · simp [dupGroupError, Env.get]
  | false =>
    refine ⟨by simp [addTaskGroup, hdup, hany], hugeTaskError g, ?_, ?_⟩
    · simp [addTaskGroup, hdup, hany]
    · simp [hugeTaskError, Env.get]

theorem C2_huge_task_rejected_witness :
    (addTaskGroup freshTm hugeGroupEnv).1 = freshTm ∧
    ∃ e, (addTaskGroup freshTm hugeGroupEnv).2 = .rejectedWith e ∧
      (Env.get e "error").isSome = true :=
  C2_huge_task_rejected freshTm hugeGroupEnv (by decide)

/-- C4: at service start every group persisted with status `to_judge`
is restored, each of its jobs present in the in-progress map with its
env tagged by `contest_uid`; for the `SAVED_TASKS` fixture the restored
map holds exactly `asdf` with env
`task_id=asdf, group_id=asdf_group, job_type=cpu-exec,
contest_uid=(None, None)`. -/
theorem C4_restore_to_judge :
    (∀ (maxRam : Int) (db : List (String × StoredGroup)) (gid : String)
       (sg : StoredGroup) (tid : String) (jenv : Env),
       (gid, sg) ∈ db → sg.status = "to_judge" →
       (tid, jenv) ∈ sg.genv.workers_jobs →
       (tid, withContestUid jenv) ∈ (startService maxRam db).inProgress) ∧
    (startService 2048 savedDb).inProgress = [("asdf", restoredAsdfEnv)] := by
  constructor
  · intro maxRam db gid sg tid jenv hmem hstatus hjob
    show (tid, withContestUid jenv) ∈ restoredTasks db
    unfold restoredTasks
    refine List.mem_flatMap.2 ⟨(gid, sg), ?_, ?_⟩
    · exact List.mem_filter.2 ⟨hmem, by simp [hstatus]⟩
    · exact List.mem_map.2 ⟨(tid, jenv), hjob, rfl⟩
  · decide

theorem C4_restore_to_judge_witness :
    ("asdf", withContestUid savedAsdfJob) ∈
      (startService 2048 savedDb).inProgress :=
  C4_restore_to_judge.1 2048 savedDb "asdf_group" savedAsdfGroup
    "asdf" savedAsdfJob (by decide) (by decide) (by decide)

theorem lookup_updateGroup (gs : List (String × GroupProg)) (gid : String)
    (fn : GroupProg → GroupProg) :
    (updateGroup gs gid fn).lookup gid = (gs.lookup gid).map fn := by
  induction gs with
  | nil => rfl
  | cons p rest ih =>
    obtain ⟨k, v⟩ := p
    by_cases h : k = gid
    · subst h
      simp [updateGroup, List.lookup]
    · have h3 : (gid == k) = false := beq_eq_false_iff_ne.2 fun he => h he.symm
      simp [updateGroup, List.lookup, if_neg h, h3, ih]

theorem mem_enqueue (q : SchedQueues) (c : ExecClass) (tid : String) :
    tid ∈ (q.enqueue c tid).queueOf c := by
  cases c <;> simp [SchedQueues.enqueue, SchedQueues.queueOf]

/-- C5: when a worker's transport is lost, every job in flight on it
fails with `WorkerGone`, which is not terminal: while the group is
under the retry ceiling the job is re-queued into its execution class's
queue with the group's `retry_cnt` bumped and the group not failed;
only an exhausted retry ceiling fails the group. -/
theorem C5_worker_gone_requeue (st : GoneState) (w : String) (f : Flight)
    (g : GroupProg)
    (honly : st.flights.filter (fun x => x.worker == w) = [f])
    (hgrp : st.groups.lookup f.groupId = some g) :
    (f.taskId, WMFailure.workerGone) ∈ (handleWorkerGone st w).2 ∧
    (g.retry_cnt < st.retryLimit →
      f.taskId ∈
        (handleWorkerGone st w).1.queues.queueOf (classOf f.env) ∧
      (handleWorkerGone st w).1.groups.lookup f.groupId =
        some { retry_cnt := g.retry_cnt + 1, failed := g.failed }) ∧
    (st.retryLimit ≤ g.retry_cnt →
      (handleWorkerGone st w).1.groups.lookup f.groupId =
        some { retry_cnt := g.retry_cnt, failed := true }) := by
  refine ⟨?_, ?_, ?_⟩
  · simp [handleWorkerGone, honly]
  · intro hlt
    constructor
    · simp only [handleWorkerGone, honly, List.foldl_cons, List.foldl_nil,
        retryOne, hgrp, if_pos hlt]
      exact mem_enqueue _ _ _
    · simp only [handleWorkerGone, honly, List.foldl_cons, List.foldl_nil,
        retryOne, hgrp, if_pos hlt]
      rw [lookup_updateGroup, hgrp]
      rfl
  · intro hge
    have hnlt : ¬g.retry_cnt < st.retryLimit := not_lt.2 hge
    simp only [handleWorkerGone, honly, List.foldl_cons, List.foldl_nil,
      retryOne, hgrp, if_neg hnlt]
    rw [lookup_updateGroup, hgrp]
    rfl

theorem C5_worker_gone_requeue_witness :
    ("hang", WMFailure.workerGone) ∈ (handleWorkerGone goneSt "test").2 ∧
    "hang" ∈ (handleWorkerGone goneSt "test").1.queues.queueOf
      (classOf (hangEnv "hang")) ∧
    (handleWorkerGone goneSt "test").1.groups.lookup "asdf_group" =
      some { retry_cnt := 1, failed := false } := by
  have h := C5_worker_gone_requeue goneSt "test" goneFlight
    { retry_cnt := 0, failed := false } (by decide) (by decide)
  exact ⟨h.1, (h.2.1 (by decide)).1, (h.2.1 (by decide)).2⟩

theorem mem_setAdd (s : List String) (x : String) : x ∈ setAdd s x := by
  unfold setAdd
  by_cases h : x ∈ s
  · rw [if_pos h]
    exact h
  · rw [if_neg h]
    exact List.mem_append_right s (List.mem_singleton.2 rfl)

/-- C10: after a connection's `newWorker` call failed with
`DuplicateWorker` or `WorkerRejected`, the factory records its
uniqueID in `ignore_set` and re-raises the error; when that connection
is later lost, `workerDisconnected` only removes the id from
`ignore_set` — it does not call `manager.workerLost` and does not
delete the factory's `workers` entry for that id. -/
theorem C10_rejected_connection_ignored (f : Factory) (proto : Proto)
    (e : NewWorkerError) :
    (workerConnected f proto (.error e)).2 = .error e ∧
    proto.uniqueID ∈ (workerConnected f proto (.error e)).1.ignore_set ∧
    (workerDisconnected (workerConnected f proto (.error e)).1
      proto.uniqueID).2 = false ∧
    (workerDisconnected (workerConnected f proto (.error e)).1
      proto.uniqueID).1.workers =
      (workerConnected f proto (.error e)).1.workers ∧
    (workerDisconnected (workerConnected f proto (.error e)).1
      proto.uniqueID).1.ignore_set =
      (workerConnected f proto (.error e)).1.ignore_set.erase
        proto.uniqueID := by
  have hmem : proto.uniqueID ∈
      (workerConnected f proto (.error e)).1.ignore_set := by
    simp only [workerConnected]
    exact mem_setAdd _ _
  exact ⟨by simp [workerConnected], hmem,
    by simp [workerDisconnected, hmem],
    by simp [workerDisconnected, hmem],
    by simp [workerDisconnected, hmem]⟩

end Sioworkersd
